import Mathlib

/-!
Verification of the data-transformation pipeline of the Student Performance
Analysis dashboard (`Example.py`).

The pipeline operates on a pandas DataFrame whose rows each hold the ten
retained columns DEPNAME, BRNAME, SEM, REGNO, SUBCODE, SUBTYPE, SESMARK,
ESEM, TOTMARK, GRADE (the main script restricts the loaded table to exactly
these columns before any aggregation runs).  We embed a DataFrame as a
`List Row`.

Embedding conventions, fixed once and used throughout:

* `groupby` keys, `Series.unique`, `value_counts` index and `drop_duplicates`
  all produce each key once; pandas orders them (sorted keys for `groupby`,
  first-occurrence order for `unique`, frequency order for `value_counts`).
  We take one occurrence per key via `List.dedup`.  Row order of every
  derived table is irrelevant to each property proved below (they are all
  membership, count and sum statements), so only the "each key exactly once"
  part of the pandas behaviour is load-bearing and it is preserved exactly.
* The three mark columns hold arbitrary spreadsheet cells.  A cell is either
  a numeric value (`Cell.num`, which also stands for a numeric string that
  `pd.to_numeric` parses), an empty/NaN cell (`Cell.na`), or non-numeric text
  that `pd.to_numeric(errors="coerce")` turns into NaN (`Cell.text`).
* The transient computed boolean column `df["Pass"]` is embedded as the
  field `Row.Pass : Option Bool`, `none` meaning the column is absent.
  Each aggregation is split into its in-place effect on the DataFrame and
  the table it returns; `*_call` packages both, mirroring a pandas call on
  a shared DataFrame object.
* String comparison `==`/`!=` in Python is embedded as `==`/`!=` on
  `String` (boolean-valued, decidable).
-/

namespace StudentPerf

/-- A cell of one of the three mark columns (SESMARK, ESEM, TOTMARK).
`num q` is a numeric value, including numeric strings that
`pd.to_numeric` parses to `q`; `na` is an empty/NaN cell; `text s` is
non-numeric text that `pd.to_numeric(errors="coerce")` maps to NaN. -/
inductive Cell where
  | num (q : ℚ)
  | na
  | text (s : String)
  deriving DecidableEq, Repr

/-- The numeric view of a cell: what `pd.to_numeric(errors="coerce")`
yields, with `none` for NaN. -/
def Cell.toNumeric : Cell → Option ℚ
  | .num q => some q
  | .na => none
  | .text _ => none

/-- In-place numeric coercion of one cell, as performed by
`pd.to_numeric(errors="coerce")`: numbers survive, NaN stays NaN,
non-numeric text becomes NaN. -/
def Cell.coerce : Cell → Cell
  | .num q => .num q
  | .na => .na
  | .text _ => .na

/-- One row of the loaded table, restricted (as in the main script) to the
ten retained columns, plus the transient computed column `Pass`
(`none` = column absent). -/
structure Row where
  DEPNAME : String
  BRNAME : String
  SEM : Int
  REGNO : String
  SUBCODE : String
  SUBTYPE : String
  SESMARK : Cell
  ESEM : Cell
  TOTMARK : Cell
  GRADE : String
  Pass : Option Bool := none
  deriving DecidableEq, Repr

/-- Department abbreviations (module-level constant `DEPT_ABBREVIATIONS`). -/
def DEPT_ABBREVIATIONS : List (String × String) :=
  [("AEROSPACE ENGINEERING", "AERO"),
   ("AUTOMOBILE ENGINEERING", "AUTO"),
   ("ELECTRONICS ENGINEERING", "ECE"),
   ("INFORMATION TECHNOLOGY", "IT"),
   ("INSTRUMENTATION ENGINEERING", "E&I"),
   ("PRODUCTION TECHNOLOGY", "PT"),
   ("RUBBER AND PLASTICS TECHNOLOGY", "RPT")]

/-- Dictionary lookup in `DEPT_ABBREVIATIONS`, as used by
`Series.map(DEPT_ABBREVIATIONS)`: a key that is absent maps to NaN
(`none`). -/
def lookupAbbrev (d : String) : Option String :=
  (DEPT_ABBREVIATIONS.find? (fun e => e.1 == d)).map (·.2)

/-- Department prefixes (module-level constant `DEPT_PREFIX`; renamed here
because a Lean identifier may not end in that word). -/
def DEPT_PREFIXES : List (String × String) :=
  [("Aerospace", "AE"), ("Automobile", "AU"), ("Electronics Comm", "EC"),
   ("Artificial Intelligence", "AZ"), ("Information Tech", "IT"),
   ("Inst Eng", "EI"), ("Mech", "ME"), ("Production", "PR"),
   ("Robotics", "RO"), ("Rubber and Plastics", "RP")]

/-- The in-place effect `df["Pass"] = df["GRADE"] != "U"` shared by
`determine_pass_fail` (line 78), `subject_wise_pass_fail` (line 110) and
`department_wise_pass_fail` (line 282). -/
def setPassColumn (df : List Row) : List Row :=
  df.map fun r => { r with Pass := some (r.GRADE != "U") }

/-- One row of the `StudentStatus` table returned by
`determine_pass_fail`. -/
structure StudentStatus where
  REGNO : String
  Pass : Bool
  Status : String
  deriving DecidableEq, Repr

/-- Pass/Fail logic (`determine_pass_fail`, lines 77-81): set the Pass
column, group by REGNO taking the logical AND of Pass over each group, and
map the boolean to a Pass/Fail label. -/
def determine_pass_fail (df : List Row) : List StudentStatus :=
  let df' := setPassColumn df
  ((df'.map Row.REGNO).dedup).map fun reg =>
    let p := (df'.filter fun r => r.REGNO == reg).all fun r => r.Pass == some true
    { REGNO := reg, Pass := p, Status := if p then "Pass" else "Fail" }

/-- The returned table plus the in-place effect on the shared DataFrame. -/
def determine_pass_fail_call (df : List Row) : List StudentStatus × List Row :=
  (determine_pass_fail df, setPassColumn df)

/-- The fixed grade order of `grade_distribution_per_subject` (line 85). -/
def grade_order : List String := ["O", "A+", "A", "B+", "B", "C", "U"]

/-- Grade distribution per subject (`grade_distribution_per_subject`,
lines 84-89): group by (SUBCODE, GRADE), count, and reindex against the
cartesian product of the observed subject codes with the seven fixed
grades, filling absent combinations with 0.  A (subject, grade) group
whose grade lies outside `grade_order` is dropped by the reindex. -/
def grade_distribution_per_subject (df : List Row) : List (String × String × ℕ) :=
  let subjects := (df.map Row.SUBCODE).dedup
  subjects.flatMap fun s => grade_order.map fun g =>
    (s, g, df.countP fun r => r.SUBCODE == s && r.GRADE == g)

/-- `grade_distribution_per_subject` mutates nothing. -/
def grade_distribution_per_subject_call (df : List Row) :
    List (String × String × ℕ) × List Row :=
  (grade_distribution_per_subject df, df)

/-- Subjects failed per student (`subjects_failed`, lines 92-95): restrict
to GRADE == "U", count failed rows per REGNO, then `value_counts` builds
the histogram (rows `(Subjects Failed, Student Count)`). -/
def subjects_failed (df : List Row) : List (ℕ × ℕ) :=
  let failRows := df.filter fun r => r.GRADE == "U"
  let perStudent := ((failRows.map Row.REGNO).dedup).map fun reg =>
    failRows.countP fun r => r.REGNO == reg
  (perStudent.dedup).map fun c => (c, perStudent.countP fun k => k == c)

/-- `subjects_failed` mutates nothing. -/
def subjects_failed_call (df : List Row) : List (ℕ × ℕ) × List Row :=
  (subjects_failed df, df)

/-- Mean of a mark column over one group, as pandas `mean` computes it:
NaN entries are skipped, and a group with no numeric entry gets NaN
(`none`). -/
def colMean (cells : List Cell) : Option ℚ :=
  let vs := cells.filterMap Cell.toNumeric
  if vs.length = 0 then none else some (vs.sum / vs.length)

/-- The in-place effect of line 99: the three mark columns are replaced by
their numeric coercions. -/
def coerceMarks (df : List Row) : List Row :=
  df.map fun r =>
    { r with SESMARK := r.SESMARK.coerce, ESEM := r.ESEM.coerce,
             TOTMARK := r.TOTMARK.coerce }

/-- One row of the table returned by `avg_marks_per_subject`, with its
renamed output columns (line 105). -/
structure SubjectAvg where
  SUBJECT_CODE : String
  INTERNAL : Option ℚ
  EXTERNAL : Option ℚ
  TOTAL : Option ℚ
  deriving DecidableEq, Repr

/-- Average marks per subject (`avg_marks_per_subject`, lines 98-106):
coerce the mark columns in place, then group by SUBCODE and take the mean
of each mark column. -/
def avg_marks_per_subject (df : List Row) : List SubjectAvg :=
  let df' := coerceMarks df
  ((df'.map Row.SUBCODE).dedup).map fun s =>
    let rows := df'.filter fun r => r.SUBCODE == s
    { SUBJECT_CODE := s,
      INTERNAL := colMean (rows.map Row.SESMARK),
      EXTERNAL := colMean (rows.map Row.ESEM),
      TOTAL := colMean (rows.map Row.TOTMARK) }

/-- The returned table plus the in-place coercion of the mark columns. -/
def avg_marks_per_subject_call (df : List Row) : List SubjectAvg × List Row :=
  (avg_marks_per_subject df, coerceMarks df)

/-- Subject-wise pass/fail count (`subject_wise_pass_fail`, lines 109-113):
set the Pass column, group by (SUBCODE, Pass), `unstack(fill_value=0)`, and
rename the columns to SUBJECT CODE / Fail / Pass.  After `unstack` the
DataFrame has one column per distinct Pass value occurring in the subset
(plus SUBCODE after `reset_index`), so the unconditional rename to three
names raises `ValueError` unless both a failing and a passing row occur
somewhere in the subset; `none` embeds that exception. -/
def subject_wise_pass_fail (df : List Row) : Option (List (String × ℕ × ℕ)) :=
  let df' := setPassColumn df
  if ((df'.map Row.Pass).dedup).length == 2 then
    some (((df'.map Row.SUBCODE).dedup).map fun s =>
      (s, df'.countP (fun r => r.SUBCODE == s && r.Pass == some false),
          df'.countP fun r => r.SUBCODE == s && r.Pass == some true))
  else none

/-- The returned table (or the raised error, `none`) plus the in-place
effect on the shared DataFrame. -/
def subject_wise_pass_fail_call (df : List Row) :
    Option (List (String × ℕ × ℕ)) × List Row :=
  (subject_wise_pass_fail df, setPassColumn df)

/-- One row of the table returned by `department_wise_pass_fail`: the short
department code with its Pass and Fail student counts. -/
structure DeptPF where
  DEPNAME_SHORT : String
  Pass : ℕ
  Fail : ℕ
  deriving DecidableEq, Repr

/-- The per-(short department, status) entries that
`department_wise_pass_fail` groups: per-student status rows (lines
282-284 repeat `determine_pass_fail`) are left-merged with the distinct
(REGNO, DEPNAME) pairs — pairing each student with each distinct DEPNAME
of their rows — the DEPNAME is mapped through `DEPT_ABBREVIATIONS`
(absent keys become NaN), and `groupby` then drops the NaN keys. -/
def keptEntries (df : List Row) : List (String × String) :=
  let merged := (determine_pass_fail df).flatMap fun st =>
    (((df.filter fun r => r.REGNO == st.REGNO).map Row.DEPNAME).dedup).map fun d =>
      (lookupAbbrev d, st.Status)
  merged.filterMap fun e => e.1.map fun d => (d, e.2)

/-- The `unstack(fill_value=0)` plus `reindex(columns=["Pass", "Fail"],
fill_value=0)` of lines 288-289: `unstack` creates one column per status
value occurring in `kept`, and the reindex replaces that column set by
exactly Pass and Fail, filling a column that did not occur with 0. -/
def unstackReindexPassFail (kept : List (String × String)) : List DeptPF :=
  let cols := (kept.map Prod.snd).dedup
  let cell := fun (d c : String) =>
    if c ∈ cols then kept.countP fun e => e.1 == d && e.2 == c else 0
  ((kept.map Prod.fst).dedup).map fun d =>
    { DEPNAME_SHORT := d, Pass := cell d "Pass", Fail := cell d "Fail" }

/-- Department-wise pass/fail count (`department_wise_pass_fail`,
lines 281-289). -/
def department_wise_pass_fail (df : List Row) : List DeptPF :=
  unstackReindexPassFail (keptEntries df)

/-- The returned table plus the in-place effect (line 282 sets the Pass
column of the shared DataFrame). -/
def department_wise_pass_fail_call (df : List Row) : List DeptPF × List Row :=
  (department_wise_pass_fail df, setPassColumn df)

/-! ## The loader and the render cycle (main script, lines 62-74 and 296-352) -/

/-- An uploaded payload as the loader sees it: either `read_excel` raises
(unreadable or malformed file, carrying the exception text) or it parses
the "UG" sheet into a table.  `cols` is the sheet's full column list; the
rows carry the data of the ten retained columns (the main script drops
every other column before the pipeline runs, so a `Row` holds exactly
what the pipeline can observe). -/
inductive Payload where
  | unreadable (err : String)
  | sheet (cols : List String) (rows : List Row)

/-- The required column names checked by `load_data` (line 67). -/
def required_cols : List String :=
  ["DEPNAME", "BRNAME", "SEM", "REGNO", "SUBCODE", "SUBTYPE",
   "SESMARK", "ESEM", "TOTMARK", "GRADE"]

/-- Data loading with error handling (`load_data`, lines 63-74): a parse
exception or a missing required column yields `st.error(message)` followed
by `return None`; embedded as `Except` with the displayed message. -/
def load_data : Payload → Except String (List Row)
  | .unreadable e => .error ("Error loading file: " ++ e)
  | .sheet cols rows =>
      if required_cols.all fun c => cols.contains c then .ok rows
      else .error "Excel file is missing required columns!"

/-- The filter selections made in the three selectboxes.  The widgets
restrict `dept` to "Overall", "Others (Open Elective)" or a department
name, `branch` to "All" or a branch name ("All" is forced unless a
specific department is chosen), and `sem` to "Overall", "5" or "7". -/
structure Selections where
  dept : String
  branch : String
  sem : String

/-- The per-department supplementary elective code lists (`extra_subjects`,
lines 318-329), flattened: the script only ever unions all the values into
one subject list. -/
def extra_subjects_all : List String :=
  ["HM5503", "EC5797", "PR5791", "EC5796", "RP5591", "EI5791", "AU5791", "ME5796", "IT5794",
   "GE5552", "IT5794", "GE5451", "ITM503", "ITM505", "EC5796", "EC5797", "PR5791", "RP5591", "AE5795", "ME5796",
   "HU5176", "IT5794", "MG5451", "PH5202", "EI5791", "HU5172", "HU5171", "ME5796", "HU5173", "PR5791", "HU5177", "AU5791", "AE5795", "HU5174", "RP5591",
   "HU5173", "HU5176", "HU5171", "HU5172", "HU5177",
   "HU5174", "HU5177", "HU5172", "HU5173", "HU5176", "HU5171", "EC5797", "EC5796", "AE5795", "AU5791", "EI5791", "ME5796", "PR5791", "RP5591",
   "HM5501", "ME5796", "RP5591", "EC5796", "EC5797", "IT5794", "PR5791", "AE5795",
   "ITM503", "ITM505", "AU5791", "AE5795", "GE5152", "MA5252",
   "GE5551", "HS5151", "ITM503", "ITM505", "EEM504", "EEM503", "EI5791", "EC5796", "IT5794", "AE5795",
   "EE5402", "ITM503", "ITM505", "MA5158",
   "HU5171", "HU5176", "HU5172", "ITM503", "ITM505", "HU5177", "HU5174", "GE5451", "ME5796", "EC5797", "AE5795", "AU5791", "EC5796"]

/-- `int(selected_semester)` of line 342.  The selectbox restricts the
value to "5" or "7" whenever this is evaluated, so the fallback 0 is
unreachable. -/
def semInt (s : String) : Int := (s.toInt?).getD 0

/-- The department/branch/semester filtering of the main script
(lines 314-342), producing `filtered_df`.  `sorted(...)` on the subject
list and the ordering of `drop_duplicates` do not affect which rows
survive, which is all the properties below read. -/
def filter_rows (df : List Row) (sel : Selections) : List Row :=
  let filtered :=
    if sel.dept == "Others (Open Elective)" then
      let all_prefixes := DEPT_PREFIXES.map Prod.snd
      let df_others := df.filter fun r =>
        !(all_prefixes.any fun p => r.SUBCODE.startsWith p)
      let subject_list :=
        ((df_others.map Row.SUBCODE).dedup ++ extra_subjects_all).dedup
      let df_extra := df.filter fun r => subject_list.contains r.SUBCODE
      (df_others ++ df_extra).dedup
    else if sel.dept != "Overall" then
      let byDept := df.filter fun r => r.DEPNAME == sel.dept
      if sel.branch != "All" then byDept.filter fun r => r.BRNAME == sel.branch
      else byDept
    else df
  if sel.sem != "Overall" then filtered.filter fun r => r.SEM == semInt sel.sem
  else filtered

/-- The six derived tables computed in the non-empty branch of the main
script (lines 347-352). -/
structure DerivedTables where
  pass_fail_df : List StudentStatus
  subjects_failed_df : List (ℕ × ℕ)
  department_pass_fail : List DeptPF
  subject_pass_fail : Option (List (String × ℕ × ℕ))
  subject_avg : List SubjectAvg
  subject_grade_counts : List (String × String × ℕ)

/-- The outcome of one render cycle: `stopped` embeds `st.error` + `st.stop()`
after a load failure, `warning` embeds the `st.warning` branch for an empty
filter result (no tables computed in either), and `rendered` carries the
derived tables handed to the charts. -/
inductive RenderResult where
  | stopped (errMsg : String)
  | warning (msg : String)
  | rendered (tables : DerivedTables)

/-- One render cycle of the main script (lines 296-352): load, filter,
halt on failure or empty subset, otherwise run the six aggregations in
source order on the shared `filtered_df` (each call's in-place effect is
threaded to the next call). -/
def render (p : Payload) (sel : Selections) : RenderResult :=
  match load_data p with
  | .error m => .stopped m
  | .ok df =>
      let filtered_df := filter_rows df sel
      if filtered_df.isEmpty then
        .warning ("No data available for " ++ sel.dept ++ " - " ++ sel.branch
          ++ " in Semester " ++ sel.sem)
      else
        let c1 := determine_pass_fail_call filtered_df
        let c2 := subjects_failed_call c1.2
        let c3 := department_wise_pass_fail_call c2.2
        let c4 := subject_wise_pass_fail_call c3.2
        let c5 := avg_marks_per_subject_call c4.2
        let c6 := grade_distribution_per_subject_call c5.2
        .rendered
          { pass_fail_df := c1.1, subjects_failed_df := c2.1,
            department_pass_fail := c3.1, subject_pass_fail := c4.1,
            subject_avg := c5.1, subject_grade_counts := c6.1 }

/-- A row with the transient Pass column removed: mapping a DataFrame
through this is how "only the Pass column was touched" is stated. -/
def Row.dropPass (r : Row) : Row := { r with Pass := none }

/-- The columns other than the three mark columns, as one tuple: mapping a
DataFrame through this is how "only the mark columns were touched" is
stated. -/
def Row.nonMarkCols (r : Row) :
    String × String × Int × String × String × String × String × Option Bool :=
  (r.DEPNAME, r.BRNAME, r.SEM, r.REGNO, r.SUBCODE, r.SUBTYPE, r.GRADE, r.Pass)

/-- A concrete row used by the closed witness and counterexample theorems
below (marks fixed at 40/50/90; the varying columns are passed in). -/
def sampleRow (dep reg sub grade : String) : Row :=
  { DEPNAME := dep, BRNAME := "B", SEM := 5, REGNO := reg, SUBCODE := sub,
    SUBTYPE := "T", SESMARK := Cell.num 40, ESEM := Cell.num 50,
    TOTMARK := Cell.num 90, GRADE := grade }

/-- A concrete two-row subset for the C7 witness: subject S1 has one
numeric internal mark (40) and one non-numeric one ("AB"). -/
def exAvgDf : List Row :=
  [{ sampleRow "D" "2" "S1" "O" with SESMARK := Cell.text "AB" },
   sampleRow "D" "1" "S1" "O"]

/-- The S1 entry the C7 witness exhibits: the internal mean is 40 (the
non-numeric mark is excluded), not 20 (which counting it as zero would
give). -/
def exAvgRow : SubjectAvg :=
  { SUBJECT_CODE := "S1", INTERNAL := some 40, EXTERNAL := some 50,
    TOTAL := some 90 }

/-! ## Helper lemmas -/

/-- Comparing the computed Pass column against `some true` reads off the
stored boolean. -/
lemma beq_some_true (a : Bool) : (some a == some true) = a := by
  cases a <;> rfl

lemma sum_map_indicator_zero {β : Type} [DecidableEq β] (keys : List β) (x : β)
    (hx : x ∉ keys) :
    (keys.map fun b => if x = b then (1 : ℕ) else 0).sum = 0 := by
  induction keys with
  | nil => rfl
  | cons b keys ih =>
      have hxb : ¬(x = b) := fun h => hx (h ▸ List.mem_cons_self b keys)
      have hxk : x ∉ keys := fun h => hx (List.mem_cons_of_mem b h)
      simp only [List.map_cons, List.sum_cons, if_neg hxb, ih hxk]

lemma sum_map_indicator_nodup {β : Type} [DecidableEq β] (keys : List β) (x : β)
    (hnd : keys.Nodup) (hx : x ∈ keys) :
    (keys.map fun b => if x = b then (1 : ℕ) else 0).sum = 1 := by
  induction keys with
  | nil => cases hx
  | cons b keys ih =>
      rcases List.mem_cons.mp hx with h | h
      · subst h
        have hnk : x ∉ keys := (List.nodup_cons.mp hnd).1
        simp [List.map_cons, List.sum_cons, sum_map_indicator_zero keys x hnk]
      · have hxb : ¬(x = b) := by
          rintro rfl; exact (List.nodup_cons.mp hnd).1 h
        simp only [List.map_cons, List.sum_cons, if_neg hxb,
          ih (List.nodup_cons.mp hnd).2 h]

/-- Counting a list by a partition of its key values: summing the counts of
`p a && k a == b` over a duplicate-free list of keys covering every element
counts exactly the elements satisfying `p`. -/
lemma countP_partition {α β : Type} [DecidableEq β] (l : List α) (k : α → β)
    (keys : List β) (p : α → Bool) (hnd : keys.Nodup)
    (hmem : ∀ a ∈ l, k a ∈ keys) :
    (keys.map fun b => l.countP fun a => p a && (k a == b)).sum = l.countP p := by
  induction l with
  | nil => simp
  | cons a l ih =>
      have hal : ∀ x ∈ l, k x ∈ keys := fun x hx =>
        hmem x (List.mem_cons_of_mem a hx)
      have hka : k a ∈ keys := hmem a (List.mem_cons_self a l)
      simp only [List.countP_cons]
      rw [List.sum_map_add (f := fun b => l.countP fun x => p x && (k x == b))
        (g := fun b => if (p a && (k a == b)) = true then 1 else 0)]
      rw [ih hal]
      by_cases hp : p a = true
      · have : (keys.map fun b => if (p a && (k a == b)) = true then 1 else 0)
            = keys.map fun b => if k a = b then (1 : ℕ) else 0 := by
          apply List.map_congr_left
          intro b _
          simp [hp]
        rw [this, sum_map_indicator_nodup keys (k a) hnd hka]
        simp [hp]
      · have : (keys.map fun b => if (p a && (k a == b)) = true then 1 else 0)
            = keys.map fun _ => (0 : ℕ) := by
          apply List.map_congr_left
          intro b _
          simp [hp]
        rw [this]
        simp [hp]

/-- Elements of a keyed `flatMap` block all carry their block's key, so
filtering the concatenation by one key of a duplicate-free key list
recovers exactly that key's block. -/
lemma filter_flatMap_key_not_mem {β γ : Type} [DecidableEq β] (keys : List β)
    (F : β → List γ) (kf : γ → β) (hF : ∀ b, ∀ x ∈ F b, kf x = b)
    (s : β) (hs : s ∉ keys) :
    (keys.flatMap F).filter (fun x => kf x == s) = [] := by
  induction keys with
  | nil => rfl
  | cons b keys ih =>
      have hsb : ¬(s = b) := fun h => hs (h ▸ List.mem_cons_self b keys)
      have hsk : s ∉ keys := fun h => hs (List.mem_cons_of_mem b h)
      simp only [List.flatMap_cons, List.filter_append, ih hsk,
        List.append_nil]
      apply List.filter_eq_nil_iff.mpr
      intro x hx
      simp only [hF b x hx, beq_iff_eq]
      exact fun h => hsb h.symm

lemma filter_flatMap_key {β γ : Type} [DecidableEq β] (keys : List β)
    (F : β → List γ) (kf : γ → β) (hF : ∀ b, ∀ x ∈ F b, kf x = b)
    (hnd : keys.Nodup) (s : β) (hs : s ∈ keys) :
    (keys.flatMap F).filter (fun x => kf x == s) = F s := by
  induction keys with
  | nil => cases hs
  | cons b keys ih =>
      simp only [List.flatMap_cons, List.filter_append]
      rcases List.mem_cons.mp hs with h | h
      · subst h
        have hsk : s ∉ keys := (List.nodup_cons.mp hnd).1
        rw [filter_flatMap_key_not_mem keys F kf hF s hsk, List.append_nil]
        apply List.filter_eq_self.mpr
        intro x hx
        simp [hF s x hx]
      · have hsb : ¬(s = b) := by
          rintro rfl; exact (List.nodup_cons.mp hnd).1 h
        have hhead : (F b).filter (fun x => kf x == s) = [] := by
          apply List.filter_eq_nil_iff.mpr
          intro x hx
          simp only [hF b x hx, beq_iff_eq]
          exact fun hh => hsb hh.symm
        rw [hhead, List.nil_append]
        exact ih (List.nodup_cons.mp hnd).2 h

lemma sum_map_const {α : Type} (l : List α) (c : ℕ) :
    (l.map fun _ => c).sum = l.length * c := by
  induction l with
  | nil => simp
  | cons a l ih => simp [ih, Nat.succ_mul, Nat.add_comm]

/-! ## Normalization lemmas for the shared Pass-column effect -/

lemma setPassColumn_map_REGNO (df : List Row) :
    (setPassColumn df).map Row.REGNO = df.map Row.REGNO := by
  unfold setPassColumn
  rw [List.map_map]
  rfl

lemma setPassColumn_map_SUBCODE (df : List Row) :
    (setPassColumn df).map Row.SUBCODE = df.map Row.SUBCODE := by
  unfold setPassColumn
  rw [List.map_map]
  rfl

/-- The student pass/fail table, rewritten free of the transient Pass
column: one entry per distinct REGNO, holding the AND of grade `!= "U"`
over that student's rows. -/
lemma determine_pass_fail_eq (df : List Row) :
    determine_pass_fail df
      = ((df.map Row.REGNO).dedup).map fun reg =>
          { REGNO := reg,
            Pass := (df.filter fun r => r.REGNO == reg).all fun r => r.GRADE != "U",
            Status := if (df.filter fun r => r.REGNO == reg).all fun r => r.GRADE != "U"
              then "Pass" else "Fail" } := by
  unfold determine_pass_fail
  dsimp only
  rw [setPassColumn_map_REGNO]
  apply List.map_congr_left
  intro reg _
  have hfilter : (setPassColumn df).filter (fun r => r.REGNO == reg)
      = (df.filter fun r => r.REGNO == reg).map
          fun r => { r with Pass := some (r.GRADE != "U") } := by
    unfold setPassColumn
    rw [List.filter_map]
    rfl
  rw [hfilter, List.all_map]
  have hall : ((fun r : Row => r.Pass == some true)
        ∘ fun r : Row => { r with Pass := some (r.GRADE != "U") })
      = fun r : Row => r.GRADE != "U" := by
    funext r
    exact beq_some_true _
  rw [hall]

/-- A status label of `"Fail"` reads off a false pass flag. -/
lemma status_eq_fail (p : Bool) :
    ((if p then "Pass" else "Fail") = "Fail") ↔ p = false := by
  cases p <;> simp

/-- A status label of `"Pass"` reads off a true pass flag. -/
lemma status_eq_pass (p : Bool) :
    ((if p then "Pass" else "Fail") = "Pass") ↔ p = true := by
  cases p <;> simp

/-- C1.  For every input row subset and every registration id appearing in
it, the StudentStatus table produced by `determine_pass_fail` labels that
student "Fail" iff at least one of the student's rows has grade "U",
labels them "Pass" iff the student has rows and all of them have a grade
other than "U", and contains no entry for a registration id with zero rows
in the subset. -/
theorem determine_pass_fail_correct (df : List Row) (reg : String) :
    ((∃ e ∈ determine_pass_fail df, e.REGNO = reg ∧ e.Status = "Fail")
      ↔ ∃ r ∈ df, r.REGNO = reg ∧ r.GRADE = "U")
  ∧ ((∃ e ∈ determine_pass_fail df, e.REGNO = reg ∧ e.Status = "Pass")
      ↔ (∃ r ∈ df, r.REGNO = reg) ∧ ∀ r ∈ df, r.REGNO = reg → r.GRADE ≠ "U")
  ∧ ((∀ r ∈ df, r.REGNO ≠ reg) → ∀ e ∈ determine_pass_fail df, e.REGNO ≠ reg) := by
  rw [determine_pass_fail_eq]
  have hmemdedup : reg ∈ (df.map Row.REGNO).dedup ↔ ∃ r ∈ df, r.REGNO = reg := by
    rw [List.mem_dedup, List.mem_map]
  refine ⟨?_, ?_, ?_⟩
  · constructor
    · rintro ⟨e, he, hereg, hestat⟩
      rcases List.mem_map.mp he with ⟨reg', _, rfl⟩
      subst hereg
      have hp := (status_eq_fail _).mp hestat
      rcases List.all_eq_false.mp hp with ⟨r, hrf, hrg⟩
      rcases List.mem_filter.mp hrf with ⟨hrdf, hrreg⟩
      refine ⟨r, hrdf, beq_iff_eq.mp hrreg, ?_⟩
      exact bne_eq_false_iff_eq.mp (Bool.eq_false_iff.mpr hrg)
    · rintro ⟨r, hrdf, hrreg, hrU⟩
      have hreg : reg ∈ (df.map Row.REGNO).dedup :=
        hmemdedup.mpr ⟨r, hrdf, hrreg⟩
      refine ⟨_, List.mem_map_of_mem _ hreg, rfl, ?_⟩
      have hp : ((df.filter fun x => x.REGNO == reg).all
          fun x => x.GRADE != "U") = false := by
        apply List.all_eq_false.mpr
        refine ⟨r, List.mem_filter.mpr ⟨hrdf, beq_iff_eq.mpr hrreg⟩, ?_⟩
        simp [hrU]
      simp [hp]
  · constructor
    · rintro ⟨e, he, hereg, hestat⟩
      rcases List.mem_map.mp he with ⟨reg', hreg', rfl⟩
      subst hereg
      have hp := (status_eq_pass _).mp hestat
      rcases List.mem_map.mp (List.mem_dedup.mp hreg') with ⟨r0, hr0, hr0reg⟩
      refine ⟨⟨r0, hr0, hr0reg⟩, ?_⟩
      intro r hrdf hrreg
      have hr := List.all_eq_true.mp hp r
        (List.mem_filter.mpr ⟨hrdf, beq_iff_eq.mpr hrreg⟩)
      exact bne_iff_ne.mp hr
    · rintro ⟨⟨r0, hr0, hr0reg⟩, hall⟩
      have hreg : reg ∈ (df.map Row.REGNO).dedup :=
        hmemdedup.mpr ⟨r0, hr0, hr0reg⟩
      refine ⟨_, List.mem_map_of_mem _ hreg, rfl, ?_⟩
      have hp : ((df.filter fun x => x.REGNO == reg).all
          fun x => x.GRADE != "U") = true := by
        apply List.all_eq_true.mpr
        intro r hrf
        rcases List.mem_filter.mp hrf with ⟨hrdf, hrreg⟩
        exact bne_iff_ne.mpr (hall r hrdf (beq_iff_eq.mp hrreg))
      simp [hp]
  · intro hnone e he
    rcases List.mem_map.mp he with ⟨reg', hreg', rfl⟩
    intro hcontra
    rcases List.mem_map.mp (List.mem_dedup.mp hreg') with ⟨r0, hr0, hr0reg⟩
    exact hnone r0 hr0 (by rw [hr0reg]; exact hcontra)

/-! ## C2: grade distribution per subject -/

lemma grade_order_nodup : grade_order.Nodup := by decide

/-- C2.  For every input row subset (whose grades are drawn from the fixed
grade set, as the data model prescribes), the table produced by
`grade_distribution_per_subject` contains exactly (number of distinct
subject codes) × 7 rows, pairs every one of the seven fixed grades with
every subject code, has only counts ≥ 0, and for each subject code its
seven counts sum to the number of rows with that subject code. -/
theorem grade_distribution_correct (df : List Row)
    (hG : ∀ r ∈ df, r.GRADE ∈ grade_order) :
    (grade_distribution_per_subject df).length
        = ((df.map Row.SUBCODE).dedup).length * 7
  ∧ (∀ s ∈ (df.map Row.SUBCODE).dedup, ∀ g ∈ grade_order,
      (s, g, df.countP fun r => r.SUBCODE == s && r.GRADE == g)
        ∈ grade_distribution_per_subject df)
  ∧ (∀ e ∈ grade_distribution_per_subject df, 0 ≤ e.2.2)
  ∧ (∀ s ∈ (df.map Row.SUBCODE).dedup,
      (((grade_distribution_per_subject df).filter fun e => e.1 == s).map
          fun e => e.2.2).sum
        = df.countP fun r => r.SUBCODE == s) := by
  refine ⟨?_, ?_, ?_, ?_⟩
  · unfold grade_distribution_per_subject
    dsimp only
    rw [List.length_flatMap]
    have : (List.map (List.length ∘ fun s => grade_order.map fun g =>
          (s, g, df.countP fun r => r.SUBCODE == s && r.GRADE == g))
            ((df.map Row.SUBCODE).dedup))
        = ((df.map Row.SUBCODE).dedup).map fun _ => 7 := by
      apply List.map_congr_left
      intro s _
      simp [grade_order]
    rw [this, sum_map_const]
  · intro s hs g hg
    unfold grade_distribution_per_subject
    dsimp only
    exact List.mem_flatMap.mpr ⟨s, hs, List.mem_map.mpr ⟨g, hg, rfl⟩⟩
  · intro e _
    exact Nat.zero_le _
  · intro s hs
    unfold grade_distribution_per_subject
    dsimp only
    rw [filter_flatMap_key ((df.map Row.SUBCODE).dedup)
      (fun s => grade_order.map fun g =>
        (s, g, df.countP fun r => r.SUBCODE == s && r.GRADE == g))
      (fun e => e.1) ?_ (List.nodup_dedup _) s hs]
    · rw [List.map_map]
      have : ((fun e : String × String × ℕ => e.2.2) ∘ fun g =>
            (s, g, df.countP fun r => r.SUBCODE == s && r.GRADE == g))
          = fun g => df.countP fun r => (r.SUBCODE == s) && (r.GRADE == g) := rfl
      rw [this]
      exact countP_partition df Row.GRADE grade_order
        (fun r => r.SUBCODE == s) grade_order_nodup hG
    · intro b x hx
      rcases List.mem_map.mp hx with ⟨g, _, rfl⟩
      rfl

/-- Witness for C2 at the spec's worked example rows. -/
theorem grade_distribution_correct_witness :
    (∀ r ∈ [sampleRow "INFORMATION TECHNOLOGY" "1" "AE101" "O",
            sampleRow "INFORMATION TECHNOLOGY" "1" "AE102" "U"],
      r.GRADE ∈ grade_order)
  ∧ (grade_distribution_per_subject
      [sampleRow "INFORMATION TECHNOLOGY" "1" "AE101" "O",
       sampleRow "INFORMATION TECHNOLOGY" "1" "AE102" "U"]).length = 2 * 7 :=
  ⟨by decide, (grade_distribution_correct _ (by decide)).1.trans (by decide)⟩

/-! ## C3: subject-wise pass/fail — the unconditional column rename -/

/-- C3 evaluation.  On a one-row subset whose only row passes, the set of
Pass values occurring in the subset is a singleton, `unstack` produces a
single column, and the unconditional rename to three column names raises
`ValueError` (embedded as `none`): the subject AE101 does not appear with
an explicit zero fail count, contradicting the claim.  On a subset where
both outcomes occur, the table does carry explicit zeros as claimed. -/
theorem subject_wise_pass_fail_bug_eval :
    subject_wise_pass_fail [sampleRow "INFORMATION TECHNOLOGY" "1" "AE101" "O"]
        = none
  ∧ subject_wise_pass_fail
        [sampleRow "INFORMATION TECHNOLOGY" "1" "AE101" "O",
         sampleRow "INFORMATION TECHNOLOGY" "1" "AE102" "U"]
      = some [("AE101", 0, 1), ("AE102", 1, 0)] := by
  constructor
  · rfl
  · rfl

/-! ## C4: arrear (failed-subject count) distribution -/

/-- C4.  For every input row subset, the Student Count column of the
arrear distribution sums to the number of distinct registration ids
having at least one row with grade "U", and no entry has a failure count
of zero. -/
theorem subjects_failed_correct (df : List Row) :
    ((subjects_failed df).map Prod.snd).sum
        = (((df.filter fun r => r.GRADE == "U").map Row.REGNO).dedup).length
  ∧ ∀ e ∈ subjects_failed df, 0 < e.1 := by
  unfold subjects_failed
  dsimp only
  constructor
  · rw [List.map_map]
    have hpart := countP_partition
      (((((df.filter fun r => r.GRADE == "U").map Row.REGNO).dedup).map
        fun reg => (df.filter fun r => r.GRADE == "U").countP
          fun r => r.REGNO == reg))
      (fun c => c)
      (((((df.filter fun r => r.GRADE == "U").map Row.REGNO).dedup).map
        fun reg => (df.filter fun r => r.GRADE == "U").countP
          fun r => r.REGNO == reg).dedup)
      (fun _ => true)
      (List.nodup_dedup _)
      (fun a ha => List.mem_dedup.mpr ha)
    simp only [Bool.true_and, List.countP_true] at hpart
    rw [show ((Prod.snd ∘ fun c =>
        (c, (((((df.filter fun r => r.GRADE == "U").map Row.REGNO).dedup).map
          fun reg => (df.filter fun r => r.GRADE == "U").countP
            fun r => r.REGNO == reg)).countP fun k => k == c)))
      = fun c => (((((df.filter fun r => r.GRADE == "U").map Row.REGNO).dedup).map
          fun reg => (df.filter fun r => r.GRADE == "U").countP
            fun r => r.REGNO == reg)).countP fun k => k == c from rfl]
    rw [hpart, List.length_map]
  · intro e he
    rcases List.mem_map.mp he with ⟨c, hc, rfl⟩
    rcases List.mem_map.mp (List.mem_dedup.mp hc) with ⟨reg, hreg, rfl⟩
    rcases List.mem_map.mp (List.mem_dedup.mp hreg) with ⟨r, hr, hrreg⟩
    exact List.countP_pos_iff.mpr ⟨r, hr, beq_iff_eq.mpr hrreg⟩

/-! ## C5 and C10: department-wise pass/fail -/

/-- The reindexed cell of `unstackReindexPassFail` always equals the plain
group count, whether or not the status occurred anywhere: when the
`unstack` column is absent the reindex fills 0, and the count is 0 too. -/
lemma unstack_cell_eq_countP (kept : List (String × String)) (d c : String) :
    (if c ∈ (kept.map Prod.snd).dedup
      then kept.countP fun e => e.1 == d && e.2 == c else 0)
    = kept.countP fun e => e.1 == d && e.2 == c := by
  by_cases h : c ∈ (kept.map Prod.snd).dedup
  · rw [if_pos h]
  · rw [if_neg h]
    symm
    rw [List.countP_eq_zero]
    intro e he hc
    simp only [Bool.and_eq_true, beq_iff_eq] at hc
    exact h (List.mem_dedup.mpr (List.mem_map.mpr ⟨e, he, hc.2⟩))

/-- C5.  For every input row subset, every listed department code appears
in the table produced by `department_wise_pass_fail` with both an explicit
Pass count and an explicit Fail count, each equal to the group count of
that (department, status) pair — in particular 0, not absence, when one of
the two outcomes never occurred for that department. -/
theorem department_wise_pass_fail_columns (df : List Row) :
    (∀ e ∈ department_wise_pass_fail df,
        e.Pass = (keptEntries df).countP
            (fun x => x.1 == e.DEPNAME_SHORT && x.2 == "Pass")
      ∧ e.Fail = (keptEntries df).countP
            fun x => x.1 == e.DEPNAME_SHORT && x.2 == "Fail")
  ∧ ∀ d ∈ ((keptEntries df).map Prod.fst).dedup,
      ∃ e ∈ department_wise_pass_fail df, e.DEPNAME_SHORT = d := by
  constructor
  · intro e he
    unfold department_wise_pass_fail unstackReindexPassFail at he
    dsimp only at he
    rcases List.mem_map.mp he with ⟨d, _, rfl⟩
    exact ⟨unstack_cell_eq_countP (keptEntries df) d "Pass",
      unstack_cell_eq_countP (keptEntries df) d "Fail"⟩
  · intro d hd
    unfold department_wise_pass_fail unstackReindexPassFail
    dsimp only
    exact ⟨_, List.mem_map_of_mem _ hd, rfl⟩

lemma dedup_filter {α : Type} [DecidableEq α] (p : α → Bool) (l : List α) :
    (l.filter p).dedup = l.dedup.filter p := by
  induction l with
  | nil => rfl
  | cons a l ih =>
      by_cases hp : p a = true
      · rw [List.filter_cons_of_pos hp]
        by_cases hm : a ∈ l
        · rw [List.dedup_cons_of_mem (List.mem_filter.mpr ⟨hm, hp⟩), ih,
            List.dedup_cons_of_mem hm]
        · have hm' : a ∉ l.filter p := fun h => hm (List.mem_filter.mp h).1
          rw [List.dedup_cons_of_not_mem hm', ih,
            List.dedup_cons_of_not_mem hm, List.filter_cons_of_pos hp]
      · rw [List.filter_cons_of_neg hp, ih]
        by_cases hm : a ∈ l
        · rw [List.dedup_cons_of_mem hm]
        · rw [List.dedup_cons_of_not_mem hm, List.filter_cons_of_neg hp]

lemma flatMap_congr {α β : Type} (l : List α) (f g : α → List β)
    (h : ∀ x ∈ l, f x = g x) : l.flatMap f = l.flatMap g := by
  induction l with
  | nil => rfl
  | cons a l ih =>
      rw [List.flatMap_cons, List.flatMap_cons,
        h a (List.mem_cons_self a l),
        ih fun x hx => h x (List.mem_cons_of_mem a hx)]

lemma flatMap_filter_of_nil {α β : Type} (l : List α) (F : α → List β)
    (p : α → Bool) (h : ∀ x ∈ l, ¬p x = true → F x = []) :
    (l.filter p).flatMap F = l.flatMap F := by
  induction l with
  | nil => rfl
  | cons a l ih =>
      have ih' := ih fun x hx => h x (List.mem_cons_of_mem a hx)
      by_cases hp : p a = true
      · rw [List.filter_cons_of_pos hp, List.flatMap_cons, List.flatMap_cons, ih']
      · rw [List.filter_cons_of_neg hp, List.flatMap_cons,
          h a (List.mem_cons_self a l) hp, List.nil_append, ih']

/-- Dropping the rows of one registration id does not change any other
row's group: the composed filters collapse. -/
lemma filter_regno_drop (df : List Row) (reg reg' : String) (hne : reg' ≠ reg) :
    (df.filter fun r => !(r.REGNO == reg)).filter (fun r => r.REGNO == reg')
      = df.filter fun r => r.REGNO == reg' := by
  rw [List.filter_filter]
  apply List.filter_congr
  intro r _
  by_cases h : r.REGNO = reg'
  · simp [h, hne]
  · simp [h]

/-- The grouped entries, rewritten to one closed form: one block per
distinct REGNO, holding one (short code, status) pair per distinct mapped
department name of that student's rows. -/
lemma keptEntries_eq (df : List Row) :
    keptEntries df
      = ((df.map Row.REGNO).dedup).flatMap fun reg =>
          (((df.filter fun r => r.REGNO == reg).map Row.DEPNAME).dedup).filterMap
            fun d => (lookupAbbrev d).map fun s =>
              (s, if (df.filter fun r => r.REGNO == reg).all
                    fun r => r.GRADE != "U" then "Pass" else "Fail") := by
  unfold keptEntries
  rw [List.filterMap_flatMap, determine_pass_fail_eq, List.flatMap_map]
  apply flatMap_congr
  intro reg _
  rw [List.filterMap_map]
  rfl

/-- The grouped (short department, status) entries are unchanged when the
rows of a student all of whose department names miss the abbreviation
table are dropped: that student's merged entries all carry a NaN key and
`groupby` drops them. -/
lemma keptEntries_drop_unmapped (df : List Row) (reg : String)
    (h : ∀ r ∈ df, r.REGNO = reg → lookupAbbrev r.DEPNAME = none) :
    keptEntries (df.filter fun r => !(r.REGNO == reg)) = keptEntries df := by
  rw [keptEntries_eq, keptEntries_eq]
  have hregs : ((df.filter fun r => !(r.REGNO == reg)).map Row.REGNO).dedup
      = ((df.map Row.REGNO).dedup).filter fun x => !(x == reg) := by
    have : (df.filter fun r => !(r.REGNO == reg)).map Row.REGNO
        = (df.map Row.REGNO).filter fun x => !(x == reg) := by
      rw [List.filter_map]
      rfl
    rw [this, dedup_filter]
  rw [hregs]
  have hstep : ∀ reg' ∈ ((df.map Row.REGNO).dedup).filter fun x => !(x == reg),
      ((((df.filter fun r => !(r.REGNO == reg)).filter
          fun r => r.REGNO == reg').map Row.DEPNAME).dedup).filterMap
        (fun d => (lookupAbbrev d).map fun s =>
          (s, if ((df.filter fun r => !(r.REGNO == reg)).filter
                fun r => r.REGNO == reg').all
                fun r => r.GRADE != "U" then "Pass" else "Fail"))
      = (((df.filter fun r => r.REGNO == reg').map Row.DEPNAME).dedup).filterMap
        fun d => (lookupAbbrev d).map fun s =>
          (s, if (df.filter fun r => r.REGNO == reg').all
                fun r => r.GRADE != "U" then "Pass" else "Fail") := by
    intro reg' hreg'
    have hne : reg' ≠ reg := by
      have := (List.mem_filter.mp hreg').2
      simpa using this
    rw [filter_regno_drop df reg reg' hne]
  rw [flatMap_congr _ _ _ hstep]
  apply flatMap_filter_of_nil
  intro x _ hx
  have hxreg : x = reg := by simpa using hx
  rw [List.filterMap_eq_nil_iff]
  intro d hd
  rcases List.mem_map.mp (List.mem_dedup.mp hd) with ⟨r, hr, rfl⟩
  rcases List.mem_filter.mp hr with ⟨hrdf, hrreg⟩
  rw [h r hrdf (by rw [beq_iff_eq.mp hrreg, hxreg])]
  rfl

/-- C10.  A student whose department names all miss `DEPT_ABBREVIATIONS`
is silently excluded from `department_wise_pass_fail` entirely: the table
is identical to the one computed without that student's rows, so they are
counted in neither the Pass nor the Fail column of any department, and no
error is raised (the function is total). -/
theorem department_wise_unmapped_excluded (df : List Row) (reg : String)
    (h : ∀ r ∈ df, r.REGNO = reg → lookupAbbrev r.DEPNAME = none) :
    department_wise_pass_fail df
      = department_wise_pass_fail (df.filter fun r => !(r.REGNO == reg)) := by
  unfold department_wise_pass_fail
  rw [keptEntries_drop_unmapped df reg h]

/-- Witness for C10: a student of an unlisted department ("MATHEMATICS")
leaves the department table exactly as it is without them. -/
theorem department_wise_unmapped_excluded_witness :
    (∀ r ∈ [sampleRow "MATHEMATICS" "9" "S1" "U",
            sampleRow "INFORMATION TECHNOLOGY" "2" "S1" "O"],
        r.REGNO = "9" → lookupAbbrev r.DEPNAME = none)
  ∧ department_wise_pass_fail
        [sampleRow "MATHEMATICS" "9" "S1" "U",
         sampleRow "INFORMATION TECHNOLOGY" "2" "S1" "O"]
      = department_wise_pass_fail
        ([sampleRow "MATHEMATICS" "9" "S1" "U",
          sampleRow "INFORMATION TECHNOLOGY" "2" "S1" "O"].filter
          fun r => !(r.REGNO == "9")) :=
  ⟨by decide, department_wise_unmapped_excluded _ "9" (by decide)⟩

/-! ## C7: average marks per subject -/

lemma Cell.coerce_toNumeric (c : Cell) : c.coerce.toNumeric = c.toNumeric := by
  cases c <;> rfl

lemma coerceMarks_map_SUBCODE (df : List Row) :
    (coerceMarks df).map Row.SUBCODE = df.map Row.SUBCODE := by
  unfold coerceMarks
  rw [List.map_map]
  rfl

/-- C7.  For every input row subset, every entry of the table produced by
`avg_marks_per_subject` reports, for each of the three mark columns, the
mean of exactly the numerically parseable mark values of its subject's
rows: non-numeric values are excluded (not counted as zero), and a subject
with no parseable value in some column gets a missing mean rather than an
error. -/
theorem avg_marks_correct (df : List Row) (e : SubjectAvg)
    (he : e ∈ avg_marks_per_subject df) :
    (e.INTERNAL =
      (if (((df.filter fun r => r.SUBCODE == e.SUBJECT_CODE).map
          Row.SESMARK).filterMap Cell.toNumeric).length = 0 then none
       else some ((((df.filter fun r => r.SUBCODE == e.SUBJECT_CODE).map
          Row.SESMARK).filterMap Cell.toNumeric).sum
        / (((df.filter fun r => r.SUBCODE == e.SUBJECT_CODE).map
          Row.SESMARK).filterMap Cell.toNumeric).length)))
  ∧ (e.EXTERNAL =
      (if (((df.filter fun r => r.SUBCODE == e.SUBJECT_CODE).map
          Row.ESEM).filterMap Cell.toNumeric).length = 0 then none
       else some ((((df.filter fun r => r.SUBCODE == e.SUBJECT_CODE).map
          Row.ESEM).filterMap Cell.toNumeric).sum
        / (((df.filter fun r => r.SUBCODE == e.SUBJECT_CODE).map
          Row.ESEM).filterMap Cell.toNumeric).length)))
  ∧ (e.TOTAL =
      (if (((df.filter fun r => r.SUBCODE == e.SUBJECT_CODE).map
          Row.TOTMARK).filterMap Cell.toNumeric).length = 0 then none
       else some ((((df.filter fun r => r.SUBCODE == e.SUBJECT_CODE).map
          Row.TOTMARK).filterMap Cell.toNumeric).sum
        / (((df.filter fun r => r.SUBCODE == e.SUBJECT_CODE).map
          Row.TOTMARK).filterMap Cell.toNumeric).length))) := by
  unfold avg_marks_per_subject at he
  dsimp only at he
  rcases List.mem_map.mp he with ⟨s, _, rfl⟩
  have hfilter : (coerceMarks df).filter (fun r => r.SUBCODE == s)
      = (df.filter fun r => r.SUBCODE == s).map fun r =>
          { r with SESMARK := r.SESMARK.coerce, ESEM := r.ESEM.coerce,
                   TOTMARK := r.TOTMARK.coerce } := by
    unfold coerceMarks
    rw [List.filter_map]
    rfl
  have key : ∀ (proj : Row → Cell), (∀ r : Row,
        proj { r with SESMARK := r.SESMARK.coerce, ESEM := r.ESEM.coerce,
                      TOTMARK := r.TOTMARK.coerce } = (proj r).coerce) →
      ((((df.filter fun r => r.SUBCODE == s).map fun r =>
          { r with SESMARK := r.SESMARK.coerce, ESEM := r.ESEM.coerce,
                   TOTMARK := r.TOTMARK.coerce }).map proj).filterMap
        Cell.toNumeric)
      = ((df.filter fun r => r.SUBCODE == s).map proj).filterMap
          Cell.toNumeric := by
    intro proj hproj
    rw [List.map_map, List.filterMap_map, List.filterMap_map]
    apply List.filterMap_congr
    intro r _
    show Cell.toNumeric (proj _) = Cell.toNumeric (proj r)
    rw [hproj r, Cell.coerce_toNumeric]
  refine ⟨?_, ?_, ?_⟩
  · show colMean _ = _
    unfold colMean
    rw [hfilter, key Row.SESMARK fun r => rfl]
  · show colMean _ = _
    unfold colMean
    rw [hfilter, key Row.ESEM fun r => rfl]
  · show colMean _ = _
    unfold colMean
    rw [hfilter, key Row.TOTMARK fun r => rfl]

/-- Evaluation of `avg_marks_per_subject` at the C7 witness subset: one
subject row, with the non-numeric internal mark excluded from the mean. -/
lemma avg_marks_eval_exAvgDf : avg_marks_per_subject exAvgDf = [exAvgRow] := by
  norm_num [avg_marks_per_subject, coerceMarks, exAvgDf, exAvgRow, sampleRow,
    colMean, Cell.coerce, Cell.toNumeric, List.dedup, Function.comp,
    List.filterMap_cons, List.filterMap_nil]
  exact And.intro (fun h => nomatch h)
    (And.intro (fun h => nomatch h) (fun h => nomatch h))

/-- Witness for C7: a subject with one parseable internal mark (40) and one
non-numeric one reports mean 40, not 20. -/
theorem avg_marks_correct_witness :
    exAvgRow ∈ avg_marks_per_subject exAvgDf
  ∧ exAvgRow.INTERNAL =
      (if (((exAvgDf.filter fun r => r.SUBCODE == exAvgRow.SUBJECT_CODE).map
          Row.SESMARK).filterMap Cell.toNumeric).length = 0 then none
       else some ((((exAvgDf.filter fun r => r.SUBCODE == exAvgRow.SUBJECT_CODE).map
          Row.SESMARK).filterMap Cell.toNumeric).sum
        / (((exAvgDf.filter fun r => r.SUBCODE == exAvgRow.SUBJECT_CODE).map
          Row.SESMARK).filterMap Cell.toNumeric).length)) :=
  have hmem : exAvgRow ∈ avg_marks_per_subject exAvgDf := by
    rw [avg_marks_eval_exAvgDf]
    exact List.mem_singleton.mpr rfl
  ⟨hmem, (avg_marks_correct exAvgDf exAvgRow hmem).1⟩

/-! ## C8: idempotence of the aggregation calls -/

lemma setPass_setPass (df : List Row) :
    setPassColumn (setPassColumn df) = setPassColumn df := by
  unfold setPassColumn
  rw [List.map_map]
  rfl

lemma Cell.coerce_coerce (c : Cell) : c.coerce.coerce = c.coerce := by
  cases c <;> rfl

lemma coerceMarks_coerceMarks (df : List Row) :
    coerceMarks (coerceMarks df) = coerceMarks df := by
  unfold coerceMarks
  rw [List.map_map]
  apply List.map_congr_left
  intro r _
  simp [Function.comp, Cell.coerce_coerce]

lemma determine_pass_fail_setPass (df : List Row) :
    determine_pass_fail (setPassColumn df) = determine_pass_fail df := by
  unfold determine_pass_fail
  dsimp only
  rw [setPass_setPass]

lemma subject_wise_pass_fail_setPass (df : List Row) :
    subject_wise_pass_fail (setPassColumn df) = subject_wise_pass_fail df := by
  unfold subject_wise_pass_fail
  dsimp only
  rw [setPass_setPass]

lemma keptEntries_setPass (df : List Row) :
    keptEntries (setPassColumn df) = keptEntries df := by
  rw [keptEntries_eq, keptEntries_eq, setPassColumn_map_REGNO]
  apply flatMap_congr
  intro reg _
  have hfilter : (setPassColumn df).filter (fun r => r.REGNO == reg)
      = (df.filter fun r => r.REGNO == reg).map
          fun r => { r with Pass := some (r.GRADE != "U") } := by
    unfold setPassColumn
    rw [List.filter_map]
    rfl
  rw [hfilter, List.map_map, List.all_map]
  rfl

lemma department_wise_pass_fail_setPass (df : List Row) :
    department_wise_pass_fail (setPassColumn df)
      = department_wise_pass_fail df := by
  unfold department_wise_pass_fail
  rw [keptEntries_setPass]

lemma avg_marks_per_subject_coerce (df : List Row) :
    avg_marks_per_subject (coerceMarks df) = avg_marks_per_subject df := by
  unfold avg_marks_per_subject
  dsimp only
  rw [coerceMarks_coerceMarks]

/-- C8.  Calling the second member of each aggregation pair on the
DataFrame as mutated by the first call yields the same table as the first
call did: every aggregation is idempotent on the shared DataFrame. -/
theorem pipeline_idempotent (df : List Row) :
    (determine_pass_fail_call (determine_pass_fail_call df).2).1
        = (determine_pass_fail_call df).1
  ∧ (grade_distribution_per_subject_call
        (grade_distribution_per_subject_call df).2).1
        = (grade_distribution_per_subject_call df).1
  ∧ (subjects_failed_call (subjects_failed_call df).2).1
        = (subjects_failed_call df).1
  ∧ (avg_marks_per_subject_call (avg_marks_per_subject_call df).2).1
        = (avg_marks_per_subject_call df).1
  ∧ (subject_wise_pass_fail_call (subject_wise_pass_fail_call df).2).1
        = (subject_wise_pass_fail_call df).1
  ∧ (department_wise_pass_fail_call (department_wise_pass_fail_call df).2).1
        = (department_wise_pass_fail_call df).1 :=
  ⟨determine_pass_fail_setPass df, rfl, rfl,
   avg_marks_per_subject_coerce df, subject_wise_pass_fail_setPass df,
   department_wise_pass_fail_setPass df⟩

/-! ## C9: what each call writes back, and independence from prior
mutation -/

lemma setPassColumn_dropPass (df : List Row) :
    setPassColumn (df.map Row.dropPass) = setPassColumn df := by
  unfold setPassColumn Row.dropPass
  rw [List.map_map]
  rfl

lemma determine_pass_fail_dropPass (df : List Row) :
    determine_pass_fail (df.map Row.dropPass) = determine_pass_fail df := by
  unfold determine_pass_fail
  dsimp only
  rw [setPassColumn_dropPass]

lemma subject_wise_pass_fail_dropPass (df : List Row) :
    subject_wise_pass_fail (df.map Row.dropPass)
      = subject_wise_pass_fail df := by
  unfold subject_wise_pass_fail
  dsimp only
  rw [setPassColumn_dropPass]

lemma grade_distribution_dropPass (df : List Row) :
    grade_distribution_per_subject (df.map Row.dropPass)
      = grade_distribution_per_subject df := by
  unfold grade_distribution_per_subject
  dsimp only
  have h1 : (df.map Row.dropPass).map Row.SUBCODE = df.map Row.SUBCODE := by
    rw [List.map_map]
    rfl
  rw [h1]
  apply flatMap_congr
  intro s _
  apply List.map_congr_left
  intro g _
  rw [List.countP_map]
  rfl

lemma subjects_failed_dropPass (df : List Row) :
    subjects_failed (df.map Row.dropPass) = subjects_failed df := by
  unfold subjects_failed
  dsimp only
  have h1 : (df.map Row.dropPass).filter (fun r => r.GRADE == "U")
      = (df.filter fun r => r.GRADE == "U").map Row.dropPass := by
    rw [List.filter_map]
    rfl
  rw [h1]
  have h2 : ((df.filter fun r => r.GRADE == "U").map Row.dropPass).map Row.REGNO
      = (df.filter fun r => r.GRADE == "U").map Row.REGNO := by
    rw [List.map_map]
    rfl
  rw [h2]
  have h3 : (((df.filter fun r => r.GRADE == "U").map Row.REGNO).dedup).map
        (fun reg => ((df.filter fun r => r.GRADE == "U").map
          Row.dropPass).countP fun r => r.REGNO == reg)
      = (((df.filter fun r => r.GRADE == "U").map Row.REGNO).dedup).map
        fun reg => (df.filter fun r => r.GRADE == "U").countP
          fun r => r.REGNO == reg := by
    apply List.map_congr_left
    intro reg _
    rw [List.countP_map]
    rfl
  rw [h3]

lemma avg_marks_dropPass (df : List Row) :
    avg_marks_per_subject (df.map Row.dropPass) = avg_marks_per_subject df := by
  unfold avg_marks_per_subject
  dsimp only
  have h0 : coerceMarks (df.map Row.dropPass)
      = (coerceMarks df).map Row.dropPass := by
    unfold coerceMarks Row.dropPass
    rw [List.map_map, List.map_map]
    rfl
  rw [h0]
  have h1 : ((coerceMarks df).map Row.dropPass).map Row.SUBCODE
      = (coerceMarks df).map Row.SUBCODE := by
    rw [List.map_map]
    rfl
  rw [h1]
  apply List.map_congr_left
  intro s _
  have h2 : ((coerceMarks df).map Row.dropPass).filter (fun r => r.SUBCODE == s)
      = ((coerceMarks df).filter fun r => r.SUBCODE == s).map Row.dropPass := by
    rw [List.filter_map]
    rfl
  rw [h2]
  have h3 : ∀ proj : Row → Cell, (∀ r, proj (Row.dropPass r) = proj r) →
      ((((coerceMarks df).filter fun r => r.SUBCODE == s).map
          Row.dropPass).map proj)
        = ((coerceMarks df).filter fun r => r.SUBCODE == s).map proj := by
    intro proj hproj
    rw [List.map_map]
    apply List.map_congr_left
    intro r _
    exact hproj r
  rw [h3 Row.SESMARK fun r => rfl, h3 Row.ESEM fun r => rfl,
    h3 Row.TOTMARK fun r => rfl]

lemma keptEntries_dropPass (df : List Row) :
    keptEntries (df.map Row.dropPass) = keptEntries df := by
  rw [keptEntries_eq, keptEntries_eq]
  have h1 : (df.map Row.dropPass).map Row.REGNO = df.map Row.REGNO := by
    rw [List.map_map]
    rfl
  rw [h1]
  apply flatMap_congr
  intro reg _
  have h2 : (df.map Row.dropPass).filter (fun r => r.REGNO == reg)
      = (df.filter fun r => r.REGNO == reg).map Row.dropPass := by
    rw [List.filter_map]
    rfl
  rw [h2, List.map_map, List.all_map]
  rfl

lemma department_wise_pass_fail_dropPass (df : List Row) :
    department_wise_pass_fail (df.map Row.dropPass)
      = department_wise_pass_fail df := by
  unfold department_wise_pass_fail
  rw [keptEntries_dropPass]

/-- C9 counterexample.  A call to `avg_marks_per_subject` changes the
SESMARK column of the shared DataFrame (the non-numeric cell "AB" becomes
NaN), so "every other column of the input is left unchanged by the call"
is false as stated. -/
theorem avg_marks_mutates_marks :
    ((avg_marks_per_subject_call
        [{ sampleRow "D" "1" "S1" "O" with SESMARK := Cell.text "AB" }]).2).map
          Row.SESMARK
      ≠ [{ sampleRow "D" "1" "S1" "O" with
            SESMARK := Cell.text "AB" }].map Row.SESMARK := by
  decide

/-- C9 as amended.  The three Pass-setting aggregations write back only the
transient Pass column; `avg_marks_per_subject` additionally replaces the
three mark columns by their numeric coercions (all other columns are
untouched); the two remaining aggregations write nothing (their `_call`
returns the argument itself); and every aggregation computes the same
table on a DataFrame whose Pass column has never been set, so none relies
on a prior call's mutation. -/
theorem pipeline_frame (df : List Row) :
    ((setPassColumn df).map Row.dropPass = df.map Row.dropPass)
  ∧ ((coerceMarks df).map Row.nonMarkCols = df.map Row.nonMarkCols)
  ∧ ((coerceMarks df).map Row.SESMARK = df.map fun r => r.SESMARK.coerce)
  ∧ ((coerceMarks df).map Row.ESEM = df.map fun r => r.ESEM.coerce)
  ∧ ((coerceMarks df).map Row.TOTMARK = df.map fun r => r.TOTMARK.coerce)
  ∧ ((grade_distribution_per_subject_call df).2 = df)
  ∧ ((subjects_failed_call df).2 = df)
  ∧ (determine_pass_fail (df.map Row.dropPass) = determine_pass_fail df)
  ∧ (grade_distribution_per_subject (df.map Row.dropPass)
      = grade_distribution_per_subject df)
  ∧ (subjects_failed (df.map Row.dropPass) = subjects_failed df)
  ∧ (avg_marks_per_subject (df.map Row.dropPass) = avg_marks_per_subject df)
  ∧ (subject_wise_pass_fail (df.map Row.dropPass) = subject_wise_pass_fail df)
  ∧ (department_wise_pass_fail (df.map Row.dropPass)
      = department_wise_pass_fail df) := by
  refine ⟨?_, ?_, ?_, ?_, ?_, rfl, rfl, determine_pass_fail_dropPass df,
    grade_distribution_dropPass df, subjects_failed_dropPass df,
    avg_marks_dropPass df, subject_wise_pass_fail_dropPass df,
    department_wise_pass_fail_dropPass df⟩
  · unfold setPassColumn Row.dropPass
    rw [List.map_map]
    rfl
  · unfold coerceMarks Row.nonMarkCols
    rw [List.map_map]
    rfl
  · unfold coerceMarks
    rw [List.map_map]
    rfl
  · unfold coerceMarks
    rw [List.map_map]
    rfl
  · unfold coerceMarks
    rw [List.map_map]
    rfl

/-! ## C6: terminal error handling of the render cycle -/

/-- C6.  A render cycle halts with the user-visible message and produces no
derived table whenever loading fails (unreadable payload, or a required
column missing from the sheet) or the filter selection yields an empty row
subset; the empty-subset warning names the selected department, branch and
semester.  The `stopped` and `warning` outcomes carry no `DerivedTables`:
no aggregation result exists in those cases. -/
theorem render_error_handling (sel : Selections) :
    (∀ e, render (Payload.unreadable e) sel
        = RenderResult.stopped ("Error loading file: " ++ e))
  ∧ (∀ cols rows, (required_cols.all fun c => cols.contains c) = false →
      render (Payload.sheet cols rows) sel
        = RenderResult.stopped "Excel file is missing required columns!")
  ∧ (∀ cols rows, (required_cols.all fun c => cols.contains c) = true →
      filter_rows rows sel = [] →
      render (Payload.sheet cols rows) sel
        = RenderResult.warning ("No data available for " ++ sel.dept
            ++ " - " ++ sel.branch ++ " in Semester " ++ sel.sem)) := by
  refine ⟨fun e => rfl, ?_, ?_⟩
  · intro cols rows h
    unfold render load_data
    dsimp only
    rw [h]
    rfl
  · intro cols rows h hempty
    unfold render load_data
    dsimp only
    rw [h, if_pos rfl]
    dsimp only
    rw [hempty]
    rfl

end StudentPerf
